import Mathlib

/-!
# Verification of the spaceship-booking timeline / availability engine

Shallow embedding of the NestJS/TypeORM services of the repository
(`spaceship.service.ts`, `trip.service.ts`, `location.service.ts`,
`common/utils` calculators) and proofs about the claims of the
specification.

Conventions of the embedding:
* Instants (`Date` values, millisecond timestamps) are `Int`.
* Coordinates and distances (JS `number`) are `ℚ`; `Math.round` is
  Mathlib's `round` (both round halves up).
* Database tables are Lean lists inside a `Store`; a TypeORM
  `findOne` with an `order` clause is a min/max selection over the
  filtered list (first row wins on ties), `findOne` without `order`
  is an existence test / first match, and `find` is `List.filter`.
* Exceptions become `Except ServiceError` results; the NestJS
  exception classes are mapped onto the specification's error
  taxonomy (§7): `NotFoundException` ↦ `notFound`,
  `BadRequestException` on validation paths ↦ `validation`,
  `BadRequestException` on the cancel paths ↦ `conflict`,
  the unavailable-route rejection ↦ `unavailable`.
* `getSpaceshipLocationAtTime` recurses with *unchanged* arguments in
  one branch, so the embedding takes a `fuel : Nat` bound; `none`
  means the bound was exhausted (the source diverges) or a thrown
  `Error`.
-/

/-- Trip status enum (`trip.entity.ts`). -/
inductive TripStatus
  | scheduled
  | inProgress
  | completed
  | cancelled
deriving DecidableEq, Repr

/-- A row of the `trips` table (`trip.entity.ts`). -/
structure Trip where
  id : String
  spaceshipId : String
  departureLocationCode : String
  destinationLocationCode : String
  departureAt : Int
  arrivalAt : Int
  status : TripStatus
deriving DecidableEq, Repr

/-- A row of the `spaceships` table (`spaceship.entity.ts`);
`currentLocationCode` is the home-location cache. -/
structure Spaceship where
  id : String
  currentLocationCode : String
deriving DecidableEq, Repr

/-- A row of the `locations` table (`location.entity.ts`). -/
structure Location where
  code : String
  latitude : ℚ
  longitude : ℚ
deriving DecidableEq, Repr

/-- The persisted state the services operate on. -/
structure Store where
  spaceships : List Spaceship
  trips : List Trip
  locations : List Location
deriving DecidableEq, Repr

/-- Error taxonomy of the specification (§7), carrying the source's
message strings. -/
inductive ServiceError
  | notFound (msg : String)
  | validation (msg : String)
  | conflict (msg : String)
  | unavailable (msg : String)
  | internal (msg : String)
deriving DecidableEq, Repr

/-- `spaceshipRepository.findOne({ where: { id } })`. -/
def findSpaceship (store : Store) (sid : String) : Option Spaceship :=
  store.spaceships.find? (fun s => s.id == sid)

/-- The non-cancelled trips of one spaceship: every trip query of the
services filters by `spaceshipId` and `status: Not(TripStatus.CANCELLED)`. -/
def nonCancelledFor (store : Store) (sid : String) : List Trip :=
  store.trips.filter (fun t => t.spaceshipId == sid && !(t.status == TripStatus.cancelled))

/-- `findOne` with `order: { arrivalAt: 'DESC' }`: the row with the
largest `arrivalAt` (first row wins on ties). -/
def maxByArrival : List Trip → Option Trip
  | [] => none
  | t :: ts =>
    match maxByArrival ts with
    | none => some t
    | some u => if t.arrivalAt < u.arrivalAt then some u else some t

/-- `findOne` with `order: { departureAt: 'ASC' }`: the row with the
smallest `departureAt` (first row wins on ties). -/
def minByDeparture : List Trip → Option Trip
  | [] => none
  | t :: ts =>
    match minByDeparture ts with
    | none => some t
    | some u => if u.departureAt < t.departureAt then some u else some t

/-- `find` with `order: { arrivalAt: 'ASC' }`, first element: the row
with the smallest `arrivalAt` (first row wins on ties). -/
def minByArrival : List Trip → Option Trip
  | [] => none
  | t :: ts =>
    match minByArrival ts with
    | none => some t
    | some u => if u.arrivalAt < t.arrivalAt then some u else some t

/-- Embedding of `SpaceshipService.getSpaceshipLocationAtTime`
(`spaceship.service.ts` lines 93-154).

The `subsequentTrip` query of the source reads
`departureAt: MoreThan(lastCompletedTrip.arrivalAt) && LessThanOrEqual(targetTime)`;
in JavaScript the `&&` of two `FindOperator` objects evaluates to the
right operand, so the condition the database receives is
`departureAt <= targetTime` alone.  The embedding reproduces that
actual behaviour.  The recursive call of the source passes the same
`spaceshipId` and `targetTime` unchanged, hence the `fuel` bound:
`none` means the bound ran out (divergence) or the spaceship was not
found (thrown `Error`). -/
def getSpaceshipLocationAtTime (store : Store) (sid : String) (targetTime : Int) :
    Nat → Option String
  | 0 => none
  | fuel + 1 =>
    match findSpaceship store sid with
    | none => none
    | some spaceship =>
      match maxByArrival ((nonCancelledFor store sid).filter
          (fun t => t.arrivalAt ≤ targetTime)) with
      | some lastCompletedTrip =>
        match minByDeparture ((nonCancelledFor store sid).filter
            (fun t => t.departureAt ≤ targetTime)) with
        | some subsequentTrip =>
          if subsequentTrip.departureAt ≤ targetTime ∧ targetTime < subsequentTrip.arrivalAt then
            some "IN_TRANSIT"
          else if subsequentTrip.arrivalAt ≤ targetTime then
            getSpaceshipLocationAtTime store sid targetTime fuel
          else
            some lastCompletedTrip.destinationLocationCode
        | none => some lastCompletedTrip.destinationLocationCode
      | none =>
        if (nonCancelledFor store sid).any
            (fun t => t.departureAt ≤ targetTime && targetTime < t.arrivalAt) then
          some "IN_TRANSIT"
        else
          some spaceship.currentLocationCode

/-- The location resolver with the `subsequentTrip` condition the
specification states (§4.2 / §9): the later trip must depart strictly
after the last completed trip's arrival *and* at or before the target
time.  Kept side by side with `getSpaceshipLocationAtTime` to compare
the source's actual behaviour with the intended one. -/
def getSpaceshipLocationAtTimeIntended (store : Store) (sid : String) (targetTime : Int) :
    Nat → Option String
  | 0 => none
  | fuel + 1 =>
    match findSpaceship store sid with
    | none => none
    | some spaceship =>
      match maxByArrival ((nonCancelledFor store sid).filter
          (fun t => t.arrivalAt ≤ targetTime)) with
      | some lastCompletedTrip =>
        match minByDeparture ((nonCancelledFor store sid).filter
            (fun t => lastCompletedTrip.arrivalAt < t.departureAt
              && t.departureAt ≤ targetTime)) with
        | some subsequentTrip =>
          if subsequentTrip.departureAt ≤ targetTime ∧ targetTime < subsequentTrip.arrivalAt then
            some "IN_TRANSIT"
          else if subsequentTrip.arrivalAt ≤ targetTime then
            getSpaceshipLocationAtTimeIntended store sid targetTime fuel
          else
            some lastCompletedTrip.destinationLocationCode
        | none => some lastCompletedTrip.destinationLocationCode
      | none =>
        if (nonCancelledFor store sid).any
            (fun t => t.departureAt ≤ targetTime && targetTime < t.arrivalAt) then
          some "IN_TRANSIT"
        else
          some spaceship.currentLocationCode

/-- A vehicle with two chronologically ordered, non-overlapping,
non-cancelled trips `AAA→BBB` (0..10) and `BBB→CCC` (20..30). -/
def storeTwoTrips : Store where
  spaceships := [{ id := "S1", currentLocationCode := "AAA" }]
  trips :=
    [ { id := "T1", spaceshipId := "S1", departureLocationCode := "AAA",
        destinationLocationCode := "BBB", departureAt := 0, arrivalAt := 10,
        status := TripStatus.completed },
      { id := "T2", spaceshipId := "S1", departureLocationCode := "BBB",
        destinationLocationCode := "CCC", departureAt := 20, arrivalAt := 30,
        status := TripStatus.scheduled } ]
  locations :=
    [ { code := "AAA", latitude := 0, longitude := 0 },
      { code := "BBB", latitude := 10, longitude := 10 },
      { code := "CCC", latitude := 20, longitude := 20 } ]

/-- A vehicle with a single non-cancelled trip `AAA→BBB` (0..10). -/
def storeOneTrip : Store where
  spaceships := [{ id := "S1", currentLocationCode := "AAA" }]
  trips :=
    [ { id := "T1", spaceshipId := "S1", departureLocationCode := "AAA",
        destinationLocationCode := "BBB", departureAt := 0, arrivalAt := 10,
        status := TripStatus.completed } ]
  locations :=
    [ { code := "AAA", latitude := 0, longitude := 0 },
      { code := "BBB", latitude := 10, longitude := 10 } ]

/-- C1: for the ordered non-overlapping schedule of `storeTwoTrips` and
the instant `15` strictly between trip 1's arrival (10) and trip 2's
departure (20), the location resolver never returns trip 1's
destination `"BBB"`: the `&&`-collapsed `subsequentTrip` filter selects
trip 1 itself (`departureAt ≤ 15`), finds `15 ≥` its arrival, and the
source calls itself with identical arguments, so no recursion bound
suffices (the embedding yields `none` for every fuel).  The
side-by-side resolver with the specification's filter (departure
strictly after the prior arrival and at most `T`) returns `"BBB"`
immediately. -/
theorem c1_location_between_trips_diverges :
    (∀ fuel : Nat, getSpaceshipLocationAtTime storeTwoTrips "S1" 15 fuel = none) ∧
      getSpaceshipLocationAtTimeIntended storeTwoTrips "S1" 15 1 = some "BBB" := by
  constructor
  · intro fuel
    induction fuel with
    | zero => rfl
    | succ n ih =>
      rw [getSpaceshipLocationAtTime]
      simp only [storeTwoTrips, findSpaceship, nonCancelledFor, maxByArrival, minByDeparture]
      norm_num
      exact ih
  · rfl

/-- C2: the location resolution does not terminate on `storeOneTrip`
(one single non-cancelled trip, so the claimed recursion-depth bound is
1): at target time 20, past the only trip's arrival, every recursion
bound is exhausted — each recursive step re-runs the very same query
instead of advancing past a strictly greater arrival. -/
theorem c2_location_resolution_nonterminating :
    ∀ fuel : Nat, getSpaceshipLocationAtTime storeOneTrip "S1" 20 fuel = none := by
  intro fuel
  induction fuel with
  | zero => rfl
  | succ n ih =>
    rw [getSpaceshipLocationAtTime]
    simp only [storeOneTrip, findSpaceship, nonCancelledFor, maxByArrival, minByDeparture]
    norm_num
    exact ih

/-- The `conflictingTrip` existence test of
`SpaceshipService.isSpaceshipAvailable` (`spaceship.service.ts`
lines 78-84): some non-cancelled trip of the spaceship departs at
exactly the requested time. -/
def hasConflictingDeparture (store : Store) (sid : String) (requestedTime : Int) : Bool :=
  (nonCancelledFor store sid).any (fun t => t.departureAt == requestedTime)

/-- Embedding of `SpaceshipService.isSpaceshipAvailable`
(`spaceship.service.ts` lines 68-87).  `none` propagates a divergent
or throwing location resolution. -/
def isSpaceshipAvailable (store : Store) (sid : String) (locationCode : String)
    (requestedTime : Int) (fuel : Nat) : Option Bool :=
  match getSpaceshipLocationAtTime store sid requestedTime fuel with
  | none => none
  | some locationAtTime =>
    if locationAtTime ≠ locationCode then some false
    else some (!hasConflictingDeparture store sid requestedTime)

/-- The per-spaceship loop of `SpaceshipService.findAvailableSpaceships`
(`spaceship.service.ts` lines 50-59): sequentially test each spaceship,
keep the available ones; a throw/divergence aborts the whole call. -/
def availableLoop (store : Store) (locationCode : String) (time : Int) (fuel : Nat) :
    List Spaceship → Option (List Spaceship)
  | [] => some []
  | s :: rest =>
    match isSpaceshipAvailable store s.id locationCode time fuel with
    | none => none
    | some b =>
      match availableLoop store locationCode time fuel rest with
      | none => none
      | some l => some (if b then s :: l else l)

/-- Embedding of `SpaceshipService.findAvailableSpaceships`
(`spaceship.service.ts` lines 44-63); the repository `find()` carries
no order clause, so the loop runs over the stored row order. -/
def findAvailableSpaceships (store : Store) (locationCode : String) (time : Int)
    (fuel : Nat) : Option (List Spaceship) :=
  availableLoop store locationCode time fuel store.spaceships

theorem isSpaceshipAvailable_eq_true_iff (store : Store) (sid locationCode : String)
    (time : Int) (fuel : Nat) :
    isSpaceshipAvailable store sid locationCode time fuel = some true ↔
      (getSpaceshipLocationAtTime store sid time fuel = some locationCode ∧
        hasConflictingDeparture store sid time = false) := by
  unfold isSpaceshipAvailable
  cases h : getSpaceshipLocationAtTime store sid time fuel with
  | none => simp
  | some loc =>
    by_cases hl : loc = locationCode
    · subst hl
      simp [Bool.not_eq_true']
    · simp [hl]

theorem availableLoop_mem (store : Store) (locationCode : String) (time : Int)
    (fuel : Nat) (ships : List Spaceship) (res : List Spaceship)
    (h : availableLoop store locationCode time fuel ships = some res) (s : Spaceship) :
    s ∈ res ↔ s ∈ ships ∧
      isSpaceshipAvailable store s.id locationCode time fuel = some true := by
  induction ships generalizing res with
  | nil =>
    simp only [availableLoop, Option.some.injEq] at h
    subst h
    simp
  | cons hd tl ih =>
    simp only [availableLoop] at h
    cases hav : isSpaceshipAvailable store hd.id locationCode time fuel with
    | none => rw [hav] at h; exact absurd h (by simp)
    | some b =>
      rw [hav] at h
      cases hrest : availableLoop store locationCode time fuel tl with
      | none => rw [hrest] at h; exact absurd h (by simp)
      | some l =>
        rw [hrest] at h
        simp only [Option.some.injEq] at h
        subst h
        cases b with
        | false =>
          rw [show (if (false : Bool) = true then hd :: l else l) = l from rfl,
            ih l hrest, List.mem_cons]
          constructor
          · rintro ⟨hs, hav2⟩
            exact ⟨Or.inr hs, hav2⟩
          · rintro ⟨rfl | hs, hav2⟩
            · rw [hav] at hav2
              exact absurd hav2 (by simp)
            · exact ⟨hs, hav2⟩
        | true =>
          rw [show (if (true : Bool) = true then hd :: l else l) = hd :: l from rfl,
            List.mem_cons, ih l hrest, List.mem_cons]
          constructor
          · rintro (rfl | ⟨hs, hav2⟩)
            · exact ⟨Or.inl rfl, hav⟩
            · exact ⟨Or.inr hs, hav2⟩
          · rintro ⟨rfl | hs, hav2⟩
            · exact Or.inl rfl
            · exact Or.inr ⟨hs, hav2⟩

/-- C4: whenever `findAvailableSpaceships` returns (no vehicle's
location resolution threw or diverged within the bound), the returned
list contains exactly the stored vehicles whose resolved location at
`time` is the departure location and that have no non-cancelled trip
departing at exactly `time`. -/
theorem c4_findAvailableSpaceships_characterization (store : Store)
    (locationCode : String) (time : Int) (fuel : Nat) (res : List Spaceship)
    (h : findAvailableSpaceships store locationCode time fuel = some res)
    (s : Spaceship) :
    s ∈ res ↔ s ∈ store.spaceships ∧
      getSpaceshipLocationAtTime store s.id time fuel = some locationCode ∧
      hasConflictingDeparture store s.id time = false := by
  rw [availableLoop_mem store locationCode time fuel store.spaceships res h s,
    isSpaceshipAvailable_eq_true_iff]

/-- Fleet for the C4 witness: `S1` resting at `AAA` with no trips,
`S2` resting at `BBB`. -/
def storeFleetC4 : Store where
  spaceships :=
    [ { id := "S1", currentLocationCode := "AAA" },
      { id := "S2", currentLocationCode := "BBB" } ]
  trips := []
  locations :=
    [ { code := "AAA", latitude := 0, longitude := 0 },
      { code := "BBB", latitude := 10, longitude := 10 } ]

/-- Witness for C4 at a concrete fleet: the call returns `[S1]` and the
characterization holds for `S1`. -/
theorem c4_witness :
    findAvailableSpaceships storeFleetC4 "AAA" 5 1 =
        some [{ id := "S1", currentLocationCode := "AAA" }] ∧
      ({ id := "S1", currentLocationCode := "AAA" } ∈
          [({ id := "S1", currentLocationCode := "AAA" } : Spaceship)] ↔
        { id := "S1", currentLocationCode := "AAA" } ∈ storeFleetC4.spaceships ∧
          getSpaceshipLocationAtTime storeFleetC4 "S1" 5 1 = some "AAA" ∧
          hasConflictingDeparture storeFleetC4 "S1" 5 = false) := by
  refine ⟨by decide, ?_⟩
  exact c4_findAvailableSpaceships_characterization storeFleetC4 "AAA" 5 1
    [{ id := "S1", currentLocationCode := "AAA" }] (by decide)
    { id := "S1", currentLocationCode := "AAA" }

/-- `TimeCalculator.SPACESHIP_SPEED_MPH` (`common/utils`). -/
def SPACESHIP_SPEED_MPH : ℚ := 1000

/-- `TimeCalculator.MILLISECONDS_PER_HOUR`. -/
def MILLISECONDS_PER_HOUR : ℚ := 60 * 60 * 1000

/-- `TimeCalculator.calculateTravelTime`: travel duration in whole
milliseconds, `Math.round(distance / speed * msPerHour)`. -/
def calculateTravelTime (distanceMiles : ℚ) : Int :=
  round (distanceMiles / SPACESHIP_SPEED_MPH * MILLISECONDS_PER_HOUR)

/-- `TimeCalculator.calculateTravelTimeMinutes`: travel duration in
whole minutes, `Math.round(distance / speed * 60)`. -/
def calculateTravelTimeMinutes (distanceMiles : ℚ) : Int :=
  round (distanceMiles / SPACESHIP_SPEED_MPH * 60)

/-- The minute count `formatDuration` derives from a millisecond
duration: `Math.round(milliseconds / 60000)`. -/
def formatDurationTotalMinutes (milliseconds : Int) : Int :=
  round ((milliseconds : ℚ) / 60000)

/-- `TimeCalculator.calculateArrivalTime`. -/
def calculateArrivalTime (departureTime : Int) (distanceMiles : ℚ) : Int :=
  departureTime + calculateTravelTime distanceMiles

/-- The `Partial<Trip>` record `findEarliestAvailableSpaceship` builds
for an alternative-time offer (`trip.service.ts` lines 214-221). -/
structure ProposedTrip where
  spaceshipId : String
  departureLocationCode : String
  destinationLocationCode : String
  departureAt : Int
  arrivalAt : Int
  status : TripStatus
deriving DecidableEq, Repr

/-- Embedding of `SpaceshipService.getNextAvailableTime`
(`spaceship.service.ts` lines 159-205).  When the resolved location
matches, the source queries the next strictly-later departure but then
returns `afterTime` in both branches (lines 179-185), so the query has
no observable effect and is dropped here.  Outer `none` propagates a
divergent/throwing location resolution; inner `none` is the source's
`null` ("never arrives there"). -/
def getNextAvailableTime (store : Store) (sid locationCode : String) (afterTime : Int)
    (fuel : Nat) : Option (Option Int) :=
  match getSpaceshipLocationAtTime store sid afterTime fuel with
  | none => none
  | some currentLocation =>
    if currentLocation == locationCode then
      some (some afterTime)
    else
      match minByArrival ((nonCancelledFor store sid).filter
          (fun t => afterTime < t.arrivalAt && t.destinationLocationCode == locationCode)) with
      | some first => some (some first.arrivalAt)
      | none => some none

/-- `SpaceshipService.findAll`: all spaceships ordered by id ascending. -/
def findAllSpaceships (store : Store) : List Spaceship :=
  List.insertionSort (fun a b => a.id ≤ b.id) store.spaceships

/-- The accumulator loop of `TripService.findEarliestAvailableSpaceship`
(`trip.service.ts` lines 191-201): keep the strictly earliest
candidate, the first (lowest-id) vehicle winning ties. -/
def earliestOptionLoop (store : Store) (locationCode : String) (afterTime : Int)
    (fuel : Nat) : List Spaceship → Option (Spaceship × Int) →
    Option (Option (Spaceship × Int))
  | [], acc => some acc
  | s :: rest, acc =>
    match getNextAvailableTime store s.id locationCode afterTime fuel with
    | none => none
    | some none => earliestOptionLoop store locationCode afterTime fuel rest acc
    | some (some t) =>
      earliestOptionLoop store locationCode afterTime fuel rest
        (match acc with
          | none => some (s, t)
          | some (s0, t0) => if t < t0 then some (s, t) else some (s0, t0))

/-- Embedding of `TripService.findEarliestAvailableSpaceship`
(`trip.service.ts` lines 180-222).  `dist` is the external distance
function (`LocationService.calculateDistance`), a pure collaborator per
the specification §1. -/
def findEarliestAvailableSpaceship (store : Store) (dist : String → String → ℚ)
    (departureLocationCode destinationLocationCode : String) (afterTime : Int)
    (fuel : Nat) : Option (Option ProposedTrip) :=
  match earliestOptionLoop store departureLocationCode afterTime fuel
      (findAllSpaceships store) none with
  | none => none
  | some none => some none
  | some (some (s, availableTime)) =>
    some (some
      { spaceshipId := s.id
        departureLocationCode := departureLocationCode
        destinationLocationCode := destinationLocationCode
        departureAt := availableTime
        arrivalAt := calculateArrivalTime availableTime
          (dist departureLocationCode destinationLocationCode)
        status := TripStatus.scheduled })

/-- A vehicle away from `AAA`: trip `T1` `AAA→BBB` (0..10) has
completed, return trip `T2` `BBB→AAA` (20..30) is scheduled. -/
def storeReturnTrip : Store where
  spaceships := [{ id := "S1", currentLocationCode := "AAA" }]
  trips :=
    [ { id := "T1", spaceshipId := "S1", departureLocationCode := "AAA",
        destinationLocationCode := "BBB", departureAt := 0, arrivalAt := 10,
        status := TripStatus.completed },
      { id := "T2", spaceshipId := "S1", departureLocationCode := "BBB",
        destinationLocationCode := "AAA", departureAt := 20, arrivalAt := 30,
        status := TripStatus.scheduled } ]
  locations :=
    [ { code := "AAA", latitude := 0, longitude := 0 },
      { code := "BBB", latitude := 10, longitude := 10 } ]

/-- C5: on `storeReturnTrip` at `afterT = 15` the vehicle's claimed
candidate exists — the earliest non-cancelled trip into `AAA` arriving
strictly after 15 is `T2`, arrival 30 — yet the earliest-alternative
search returns nothing for any recursion bound: the location
resolution its first step performs diverges (the `&&`-collapsed
subsequent-trip filter), so `findEarliestAvailableSpaceship` never
produces the minimum candidate. -/
theorem c5_earliest_alternative_diverges :
    (∀ fuel : Nat,
        findEarliestAvailableSpaceship storeReturnTrip (fun _ _ => 100) "AAA" "BBB" 15 fuel
          = none) ∧
      (minByArrival ((nonCancelledFor storeReturnTrip "S1").filter
          (fun t => 15 < t.arrivalAt && t.destinationLocationCode == "AAA"))).map
        (fun t => t.arrivalAt) = some 30 := by
  constructor
  · intro fuel
    have hloc : ∀ f : Nat, getSpaceshipLocationAtTime storeReturnTrip "S1" 15 f = none := by
      intro f
      induction f with
      | zero => rfl
      | succ n ih =>
        rw [getSpaceshipLocationAtTime]
        simp only [storeReturnTrip, findSpaceship, nonCancelledFor, maxByArrival,
          minByDeparture]
        norm_num
        exact ih
    have hships : findAllSpaceships storeReturnTrip =
        [{ id := "S1", currentLocationCode := "AAA" }] := rfl
    simp only [findEarliestAvailableSpaceship, hships, earliestOptionLoop,
      getNextAvailableTime, hloc]
  · decide

theorem round_le_round_of_le {a b : ℚ} (h : a ≤ b) : round a ≤ round b := by
  rw [round_eq, round_eq]
  exact Int.floor_le_floor (by linarith)

theorem abs_round_sub_round_le {a b : ℚ} (h : |a - b| ≤ 1) :
    |round a - round b| ≤ 1 := by
  rw [abs_le] at h ⊢
  constructor
  · have h1 : b ≤ a + 1 := by linarith
    have h2 := round_le_round_of_le h1
    rw [round_add_one] at h2
    omega
  · have h1 : a ≤ b + 1 := by linarith
    have h2 := round_le_round_of_le h1
    rw [round_add_one] at h2
    omega

/-- Counterexample for C10: at distance `8.33325` miles the duration in
whole minutes is `0`, but the duration in whole milliseconds is
`30000`, which converts (as `formatDuration` does) to `1` minute — the
two independently rounded results drift. -/
theorem c10_counterexample_drift :
    calculateTravelTime (33333 / 4000) = 30000 ∧
      calculateTravelTimeMinutes (33333 / 4000) = 0 ∧
      formatDurationTotalMinutes (calculateTravelTime (33333 / 4000)) = 1 ∧
      formatDurationTotalMinutes (calculateTravelTime (33333 / 4000)) ≠
        calculateTravelTimeMinutes (33333 / 4000) := by
  refine ⟨?_, ?_, ?_, ?_⟩ <;>
    norm_num [calculateTravelTime, calculateTravelTimeMinutes,
      formatDurationTotalMinutes, SPACESHIP_SPEED_MPH, MILLISECONDS_PER_HOUR,
      round_eq]

/-- C10 amended: the duration computed in whole minutes and the one
computed in whole milliseconds agree after conversion up to at most one
minute (each is a single rounding of the same exact quantity, and the
millisecond rounding moves the exact value by at most half a
millisecond). -/
theorem c10_minutes_vs_milliseconds_agree_within_one (d : ℚ) :
    |formatDurationTotalMinutes (calculateTravelTime d) - calculateTravelTimeMinutes d| ≤ 1 := by
  have hmin : calculateTravelTimeMinutes d =
      round (d / SPACESHIP_SPEED_MPH * MILLISECONDS_PER_HOUR / 60000) := by
    unfold calculateTravelTimeMinutes
    congr 1
    unfold SPACESHIP_SPEED_MPH MILLISECONDS_PER_HOUR
    ring
  have hms : calculateTravelTime d = round (d / SPACESHIP_SPEED_MPH * MILLISECONDS_PER_HOUR) :=
    rfl
  rw [hmin, hms]
  unfold formatDurationTotalMinutes
  apply abs_round_sub_round_le
  set x : ℚ := d / SPACESHIP_SPEED_MPH * MILLISECONDS_PER_HOUR
  have h1 : |(round x : ℚ) - x| ≤ 1 / 2 := by
    have h2 := abs_sub_round x
    rwa [abs_sub_comm] at h2
  have h3 : ((round x : ℚ)) / 60000 - x / 60000 = ((round x : ℚ) - x) / 60000 := by
    ring
  rw [h3, abs_div]
  rw [abs_of_pos (by norm_num : (0 : ℚ) < 60000)]
  nlinarith [abs_nonneg ((round x : ℚ) - x)]

/-- A trip request after DTO parsing (`request-trip.dto.ts` +
`DateUtils.parseISOString`): the departure instant as a timestamp. -/
structure RequestTripDto where
  departureLocationCode : String
  destinationLocationCode : String
  departureAt : Int
deriving DecidableEq, Repr

/-- `String.prototype.toUpperCase` as the source applies it to
location codes (ASCII): upper-case each character.  (Core's
`String.toUpper` is not kernel-reducible, so the character-list map is
used.) -/
def toUpperCase (s : String) : String := String.mk (s.data.map Char.toUpper)

/-- Embedding of `LocationService.validateLocationCodes`
(`location.service.ts`): every upper-cased requested code must match a
stored location.  The source compares the row count of a
de-duplicated `IN` query with the number of distinct codes; since
`code` is the primary key this is exactly "every code is found".  The
source's message interpolates the missing codes; the embedding keeps
the fixed prefix. -/
def validateLocationCodes (store : Store) (codes : List String) : Except ServiceError Unit :=
  if (codes.map toUpperCase).all (fun c => store.locations.any (fun l => l.code == c)) then
    Except.ok ()
  else
    Except.error (ServiceError.notFound "Invalid location codes")

/-- Embedding of `TripService.validateTripRequest` (`trip.service.ts`
lines 134-155).  `oneYearFromNow` is passed in because the source
computes it with calendar arithmetic (`setFullYear(getFullYear() + 1)`),
which has no fixed millisecond length.  Note the strictness of the
checks: a departure exactly at `now` is *not* rejected
(`DateUtils.isPast` is `date < now`), and a departure exactly at the
horizon passes (`departureTime > oneYearFromNow` rejects). -/
def validateTripRequest (store : Store) (dto : RequestTripDto) (now oneYearFromNow : Int) :
    Except ServiceError Unit :=
  match validateLocationCodes store
      [dto.departureLocationCode, dto.destinationLocationCode] with
  | Except.error e => Except.error e
  | Except.ok _ =>
    if dto.departureLocationCode == dto.destinationLocationCode then
      Except.error (ServiceError.validation "Departure and destination cannot be the same")
    else if dto.departureAt < now then
      Except.error (ServiceError.validation "Departure time must be in the future")
    else if oneYearFromNow < dto.departureAt then
      Except.error (ServiceError.validation "Cannot book trips more than 1 year in advance")
    else
      Except.ok ()

/-- Outcome of a booking request (`TripStatusDto` on confirmation,
`AlternativeTimeOfferDto` on an unsaved proposal). -/
inductive TripOutcome
  | confirmed (trip : Trip)
  | alternativeOffered (offer : ProposedTrip)
deriving DecidableEq, Repr

/-- Embedding of `TripService.requestTrip` (`trip.service.ts` lines
29-129), split over two store arguments to model the source's
transaction scope faithfully: every read the method performs —
validation, the availability check, the alternative search — runs on
repositories of the default connection *outside* the `SERIALIZABLE`
transaction the method only opens afterwards (line 47), so those reads
see `readStore`; the transaction body contains nothing but the trip
insert (line 70), which applies to `commitStore`, the store current at
commit time, and re-validates nothing.  A sequential call is
`requestTripOn store store …`; an execution in which another booking
commits between this request's availability read and its own commit is
`requestTripOn readStore commitStore …`.  `dist` is the external
distance function; `newId` the generated trip UUID; `none` models a
divergent location resolution. -/
def requestTripOn (readStore commitStore : Store) (dist : String → String → ℚ)
    (dto : RequestTripDto) (now oneYearFromNow : Int) (newId : String) (fuel : Nat) :
    Option (Store × Except ServiceError TripOutcome) :=
  match validateTripRequest readStore dto now oneYearFromNow with
  | Except.error e => some (commitStore, Except.error e)
  | Except.ok _ =>
    match findAvailableSpaceships readStore dto.departureLocationCode dto.departureAt fuel with
    | none => none
    | some [] =>
      match findEarliestAvailableSpaceship readStore dist dto.departureLocationCode
          dto.destinationLocationCode dto.departureAt fuel with
      | none => none
      | some none =>
        some (commitStore, Except.error (ServiceError.unavailable
          "No spaceships available for this route. All spaceships are fully booked."))
      | some (some offer) =>
        if offer.spaceshipId == "" || offer.departureLocationCode == ""
            || offer.destinationLocationCode == "" then
          some (commitStore, Except.error (ServiceError.internal
            "Invalid trip details returned for alternative time offer"))
        else
          some (commitStore, Except.ok (TripOutcome.alternativeOffered offer))
    | some (selected :: _) =>
      some ({ commitStore with trips := commitStore.trips ++
          [{ id := newId
             spaceshipId := selected.id
             departureLocationCode := dto.departureLocationCode
             destinationLocationCode := dto.destinationLocationCode
             departureAt := dto.departureAt
             arrivalAt := calculateArrivalTime dto.departureAt
               (dist dto.departureLocationCode dto.destinationLocationCode)
             status := TripStatus.scheduled }] },
        Except.ok (TripOutcome.confirmed
          { id := newId
            spaceshipId := selected.id
            departureLocationCode := dto.departureLocationCode
            destinationLocationCode := dto.destinationLocationCode
            departureAt := dto.departureAt
            arrivalAt := calculateArrivalTime dto.departureAt
              (dist dto.departureLocationCode dto.destinationLocationCode)
            status := TripStatus.scheduled }))

/-- The sequential booking call: all reads and the committing write see
the same store. -/
def requestTrip (store : Store) (dist : String → String → ℚ) (dto : RequestTripDto)
    (now oneYearFromNow : Int) (newId : String) (fuel : Nat) :
    Option (Store × Except ServiceError TripOutcome) :=
  requestTripOn store store dist dto now oneYearFromNow newId fuel

/-- A single idle vehicle at `AAA`, an empty trip table. -/
def storeSingleShip : Store where
  spaceships := [{ id := "S1", currentLocationCode := "AAA" }]
  trips := []
  locations :=
    [ { code := "AAA", latitude := 0, longitude := 0 },
      { code := "BBB", latitude := 10, longitude := 10 } ]

/-- Both concurrent requests ask for `AAA → BBB` departing at 100. -/
def dtoAAAtoBBB : RequestTripDto where
  departureLocationCode := "AAA"
  destinationLocationCode := "BBB"
  departureAt := 100

/-- The trip each of the two racing requests inserts (ids differ). -/
def racedTrip (newId : String) : Trip where
  id := newId
  spaceshipId := "S1"
  departureLocationCode := "AAA"
  destinationLocationCode := "BBB"
  departureAt := 100
  arrivalAt := calculateArrivalTime 100 1000
  status := TripStatus.scheduled

/-- C3: an interleaving in which both requests run their availability
check against the initial store before either commits.  Because the
source's `SERIALIZABLE` transaction begins only *after* the
availability check and its body is the bare insert (no re-validation,
no read of the trips table), serializing the two insert-only
transactions in either order commits both: each request returns
`Confirmed`, and the final store carries two trips for the same single
vehicle and the same departure instant. -/
theorem c3_concurrent_requests_both_confirm :
    requestTripOn storeSingleShip storeSingleShip (fun _ _ => 1000) dtoAAAtoBBB 50 50000 "T1" 1
        = some ({ storeSingleShip with trips := [racedTrip "T1"] },
            Except.ok (TripOutcome.confirmed (racedTrip "T1"))) ∧
      requestTripOn storeSingleShip { storeSingleShip with trips := [racedTrip "T1"] }
          (fun _ _ => 1000) dtoAAAtoBBB 50 50000 "T2" 1
        = some ({ storeSingleShip with trips := [racedTrip "T1", racedTrip "T2"] },
            Except.ok (TripOutcome.confirmed (racedTrip "T2"))) ∧
      (racedTrip "T1").spaceshipId = (racedTrip "T2").spaceshipId ∧
      (racedTrip "T1").departureAt = (racedTrip "T2").departureAt := by
  exact ⟨rfl, rfl, rfl, rfl⟩

/-- Counterexample for C6: a departure exactly at `now` (here both are
100) is *not* strictly in the future, yet validation passes —
`DateUtils.isPast` compares with strict `<` — and the request proceeds
all the way to a confirmed booking instead of being rejected. -/
theorem c6_counterexample_departure_exactly_now :
    validateTripRequest storeSingleShip dtoAAAtoBBB 100 50000 = Except.ok () ∧
      requestTrip storeSingleShip (fun _ _ => 1000) dtoAAAtoBBB 100 50000 "T1" 1
        = some ({ storeSingleShip with trips := [racedTrip "T1"] },
            Except.ok (TripOutcome.confirmed (racedTrip "T1"))) :=
  ⟨rfl, rfl⟩

/-- C6 amended: validation passes exactly when both codes are known,
the codes differ, the departure is not strictly in the past
(`now ≤ departure` — a departure exactly at `now` is accepted) and not
beyond the one-year horizon; and whenever validation fails,
`requestTrip` surfaces that very `ValidationError`/`NotFoundError`
unchanged — for *any* recursion budget of the availability resolver,
i.e. before any availability computation — and leaves the store
untouched. -/
theorem validateLocationCodes_spec (store : Store) (codes : List String) :
    (validateLocationCodes store codes = Except.ok () ↔
      (codes.map toUpperCase).all (fun c => store.locations.any (fun l => l.code == c))
        = true) ∧
    ∀ e, validateLocationCodes store codes = Except.error e →
      e = ServiceError.notFound "Invalid location codes" := by
  unfold validateLocationCodes
  split_ifs with h
  · simp [h]
  · constructor
    · simp [h]
    · intro e he
      simp only [Except.error.injEq] at he
      exact he.symm

theorem c6_validation_rejects_before_booking (store commitStore : Store)
    (dist : String → String → ℚ) (dto : RequestTripDto) (now oneYearFromNow : Int)
    (newId : String) (fuel : Nat) :
    (validateTripRequest store dto now oneYearFromNow = Except.ok () ↔
      (([dto.departureLocationCode, dto.destinationLocationCode].map toUpperCase).all
          (fun c => store.locations.any (fun l => l.code == c)) = true ∧
        dto.departureLocationCode ≠ dto.destinationLocationCode ∧
        now ≤ dto.departureAt ∧ dto.departureAt ≤ oneYearFromNow)) ∧
    ∀ e, validateTripRequest store dto now oneYearFromNow = Except.error e →
      requestTripOn store commitStore dist dto now oneYearFromNow newId fuel =
          some (commitStore, Except.error e) ∧
        ((∃ m, e = ServiceError.validation m) ∨ ∃ m, e = ServiceError.notFound m) := by
  obtain ⟨hok, herr⟩ := validateLocationCodes_spec store
    [dto.departureLocationCode, dto.destinationLocationCode]
  constructor
  · cases hv : validateLocationCodes store
        [dto.departureLocationCode, dto.destinationLocationCode] with
    | error e0 =>
      have hall : ¬ (([dto.departureLocationCode, dto.destinationLocationCode].map
          toUpperCase).all (fun c => store.locations.any (fun l => l.code == c)) = true) := by
        intro hc
        rw [hok.mpr hc] at hv
        exact absurd hv (by simp)
      unfold validateTripRequest
      rw [hv]
      simp only [reduceCtorEq, false_iff]
      rintro ⟨hc, -⟩
      exact hall hc
    | ok u =>
      obtain ⟨⟩ := u
      have hall := hok.mp hv
      unfold validateTripRequest
      rw [hv]
      split_ifs with h2 h3 h4
      · simp only [beq_iff_eq] at h2
        simp only [reduceCtorEq, false_iff]
        rintro ⟨-, hne, -⟩
        exact hne h2
      · simp only [reduceCtorEq, false_iff]
        rintro ⟨-, -, hle, -⟩
        omega
      · simp only [reduceCtorEq, false_iff]
        rintro ⟨-, -, -, hle⟩
        omega
      · simp only [beq_iff_eq] at h2
        exact iff_of_true rfl ⟨hall, h2, by omega, by omega⟩
  · intro e he
    refine ⟨?_, ?_⟩
    · unfold requestTripOn
      rw [he]
    · unfold validateTripRequest at he
      cases hv : validateLocationCodes store
          [dto.departureLocationCode, dto.destinationLocationCode] with
      | error e0 =>
        rw [hv] at he
        simp only [Except.error.injEq] at he
        exact Or.inr ⟨_, he.symm.trans (herr e0 hv)⟩
      | ok u =>
        obtain ⟨⟩ := u
        rw [hv] at he
        split_ifs at he <;>
          simp only [Except.error.injEq, reduceCtorEq] at he <;>
          exact Or.inl ⟨_, he.symm⟩

/-- Witness for C6: a same-departure-and-destination request is
rejected with the source's message and the store is unchanged. -/
theorem c6_witness :
    requestTripOn storeSingleShip storeSingleShip (fun _ _ => 1000)
        { departureLocationCode := "AAA", destinationLocationCode := "AAA",
          departureAt := 100 } 50 50000 "T1" 1
      = some (storeSingleShip, Except.error (ServiceError.validation
          "Departure and destination cannot be the same")) :=
  ((c6_validation_rejects_before_booking storeSingleShip storeSingleShip
      (fun _ _ => 1000)
      { departureLocationCode := "AAA", destinationLocationCode := "AAA",
        departureAt := 100 } 50 50000 "T1" 1).2
    (ServiceError.validation "Departure and destination cannot be the same") rfl).1

/-- The row update `tripRepository.save(trip)` performs after
`trip.status = CANCELLED`: overwrite the row with that primary key. -/
def cancelTripRow (tripId : String) (t : Trip) : Trip :=
  if t.id == tripId then { t with status := TripStatus.cancelled } else t

/-- Embedding of `TripService.cancelTrip` (`trip.service.ts` lines
227-255).  The three `BadRequestException` rejections are the
specification's `ConflictError`s (§7). -/
def cancelTrip (store : Store) (tripId : String) (now : Int) :
    Store × Except ServiceError Unit :=
  match store.trips.find? (fun t => t.id == tripId) with
  | none => (store, Except.error (ServiceError.notFound "Trip not found"))
  | some trip =>
    if trip.status == TripStatus.cancelled then
      (store, Except.error (ServiceError.conflict "Trip is already cancelled"))
    else if trip.status == TripStatus.completed then
      (store, Except.error (ServiceError.conflict "Cannot cancel a completed trip"))
    else if trip.departureAt ≤ now then
      (store, Except.error (ServiceError.conflict "Cannot cancel a trip that has already departed"))
    else
      ({ store with trips := store.trips.map (cancelTripRow tripId) }, Except.ok ())

theorem cancelTripRow_id (tripId : String) (t : Trip) :
    (cancelTripRow tripId t).id = t.id := by
  unfold cancelTripRow
  split_ifs <;> rfl

theorem find?_map_cancelTripRow (l : List Trip) (tripId : String) (t : Trip)
    (h : l.find? (fun u => u.id == tripId) = some t) :
    (l.map (cancelTripRow tripId)).find? (fun u => u.id == tripId)
      = some (cancelTripRow tripId t) := by
  induction l with
  | nil => simp at h
  | cons hd tl ih =>
    by_cases hid : hd.id = tripId
    · rw [List.find?_cons_of_pos _ (by simp [hid])] at h
      injection h with hh
      subst hh
      rw [List.map_cons, List.find?_cons_of_pos _ (by simp [cancelTripRow_id, hid])]
    · rw [List.find?_cons_of_neg _ (by simp [hid])] at h
      rw [List.map_cons, List.find?_cons_of_neg _ (by simp [cancelTripRow_id, hid]), ih h]

/-- C7: characterization of `cancelTrip` for any store satisfying the
reachability invariant that an `IN_PROGRESS` trip has already departed
(the reconciler only marks a trip in-progress once its departure has
passed, and `now` only grows).  An unknown id fails with the not-found
error; for a stored trip, cancellation succeeds exactly when the trip
is `SCHEDULED` with a strictly future departure; each conflicting state
fails with its specific message; every failure leaves the store
unchanged; success rewrites only that trip's status to `CANCELLED`,
and re-running the cancel afterwards fails with the already-cancelled
conflict instead of double-applying. -/
theorem c7_cancelTrip_characterization (store : Store) (tripId : String) (now : Int)
    (hInv : ∀ t ∈ store.trips, t.status = TripStatus.inProgress → t.departureAt ≤ now) :
    (store.trips.find? (fun t => t.id == tripId) = none →
      cancelTrip store tripId now =
        (store, Except.error (ServiceError.notFound "Trip not found"))) ∧
    ∀ trip, store.trips.find? (fun t => t.id == tripId) = some trip →
      ((cancelTrip store tripId now).2 = Except.ok () ↔
        trip.status = TripStatus.scheduled ∧ now < trip.departureAt) ∧
      (trip.status = TripStatus.cancelled →
        cancelTrip store tripId now =
          (store, Except.error (ServiceError.conflict "Trip is already cancelled"))) ∧
      (trip.status = TripStatus.completed →
        cancelTrip store tripId now =
          (store, Except.error (ServiceError.conflict "Cannot cancel a completed trip"))) ∧
      (trip.status ≠ TripStatus.cancelled → trip.status ≠ TripStatus.completed →
        trip.departureAt ≤ now →
        cancelTrip store tripId now =
          (store, Except.error
            (ServiceError.conflict "Cannot cancel a trip that has already departed"))) ∧
      ((cancelTrip store tripId now).2 = Except.ok () →
        (cancelTrip store tripId now).1.trips = store.trips.map (cancelTripRow tripId) ∧
        (cancelTrip (cancelTrip store tripId now).1 tripId now).2 =
          Except.error (ServiceError.conflict "Trip is already cancelled")) ∧
      ∀ e, (cancelTrip store tripId now).2 = Except.error e →
        (cancelTrip store tripId now).1 = store := by
  constructor
  · intro hnone
    simp only [cancelTrip, hnone]
  · intro trip hfind
    have hmem : trip ∈ store.trips := List.mem_of_find?_eq_some hfind
    simp only [cancelTrip, hfind]
    split_ifs with hc1 hc2 hc3
    · simp only [beq_iff_eq] at hc1
      refine ⟨by simp [hc1], fun _ => rfl, ?_, ?_, by simp, fun e _ => rfl⟩
      · intro hcomp
        rw [hc1] at hcomp
        exact absurd hcomp (by simp)
      · intro hne _ _
        exact absurd hc1 hne
    · simp only [beq_iff_eq] at hc2
      refine ⟨by simp [hc2], ?_, fun _ => rfl, ?_, by simp, fun e _ => rfl⟩
      · intro hcan
        rw [hc2] at hcan
        exact absurd hcan (by simp)
      · intro _ hne _
        exact absurd hc2 hne
    · simp only [beq_iff_eq] at hc1 hc2
      refine ⟨?_, fun h => absurd h hc1, fun h => absurd h hc2,
        fun _ _ _ => rfl, by simp, fun e _ => rfl⟩
      simp only [reduceCtorEq, false_iff, not_and, not_lt]
      intro _
      exact hc3
    · simp only [beq_iff_eq] at hc1 hc2
      push_neg at hc3
      have hsched : trip.status = TripStatus.scheduled := by
        cases hstat : trip.status with
        | scheduled => rfl
        | inProgress => exact absurd (hInv trip hmem hstat) (by omega)
        | completed => exact absurd hstat hc2
        | cancelled => exact absurd hstat hc1
      refine ⟨by simp [hsched, hc3], fun h => absurd h hc1, fun h => absurd h hc2,
        fun _ _ h => absurd h (by omega), ?_, fun e he => absurd he (by simp)⟩
      intro _
      refine ⟨rfl, ?_⟩
      have hrow : cancelTripRow tripId trip = { trip with status := TripStatus.cancelled } := by
        unfold cancelTripRow
        rw [if_pos (by simpa using List.find?_some hfind)]
      simp only [cancelTrip, find?_map_cancelTripRow store.trips tripId trip hfind, hrow]
      rfl

/-- A store holding one scheduled future trip, for the C7 witness. -/
def storeScheduledTrip : Store where
  spaceships := [{ id := "S1", currentLocationCode := "AAA" }]
  trips :=
    [ { id := "T1", spaceshipId := "S1", departureLocationCode := "AAA",
        destinationLocationCode := "BBB", departureAt := 100, arrivalAt := 200,
        status := TripStatus.scheduled } ]
  locations :=
    [ { code := "AAA", latitude := 0, longitude := 0 },
      { code := "BBB", latitude := 10, longitude := 10 } ]

/-- Witness for C7: cancelling the scheduled future trip of
`storeScheduledTrip` at `now = 50` succeeds. -/
theorem c7_witness : (cancelTrip storeScheduledTrip "T1" 50).2 = Except.ok () :=
  ((((c7_cancelTrip_characterization storeScheduledTrip "T1" 50
        (by decide)).2
      { id := "T1", spaceshipId := "S1", departureLocationCode := "AAA",
        destinationLocationCode := "BBB", departureAt := 100, arrivalAt := 200,
        status := TripStatus.scheduled } rfl).1).mpr (by exact ⟨rfl, by decide⟩))

/-- Sweep (a) of `TripService.updateTripStatuses` (`trip.service.ts`
lines 382-389) applied to one row: a `SCHEDULED` trip whose departure
has passed and arrival has not becomes `IN_PROGRESS`. -/
def sweep1Trip (now : Int) (t : Trip) : Trip :=
  if t.status = TripStatus.scheduled ∧ t.departureAt ≤ now ∧ now < t.arrivalAt then
    { t with status := TripStatus.inProgress }
  else t

/-- The `WHERE` clause of sweep (b) (lines 392-401): `SCHEDULED` or
`IN_PROGRESS` with arrival passed. -/
def sweep2Hits (now : Int) (t : Trip) : Bool :=
  (t.status == TripStatus.scheduled || t.status == TripStatus.inProgress)
    && decide (t.arrivalAt ≤ now)

/-- Sweep (b) applied to one row: a hit becomes `COMPLETED`. -/
def sweep2Trip (now : Int) (t : Trip) : Trip :=
  if sweep2Hits now t then { t with status := TripStatus.completed } else t

/-- `SpaceshipService.updateCurrentLocation` for one completed trip:
set the owning vehicle's home location to the trip's destination. -/
def applySpaceshipLocation (t : Trip) (ships : List Spaceship) : List Spaceship :=
  ships.map (fun s =>
    if s.id == t.spaceshipId then { s with currentLocationCode := t.destinationLocationCode }
    else s)

/-- Embedding of `TripService.updateTripStatuses` (`trip.service.ts`
lines 377-409): sweep (a), then sweep (b) whose affected rows (the
`RETURNING *` list; only their unchanged `spaceship_id` and
`destination_location_code` fields are read) drive the vehicle
home-location updates in row order. -/
def updateTripStatuses (store : Store) (now : Int) : Store :=
  let trips1 := store.trips.map (sweep1Trip now)
  let completedTrips := trips1.filter (sweep2Hits now)
  { store with
    trips := trips1.map (sweep2Trip now)
    spaceships := completedTrips.foldl (fun ships t => applySpaceshipLocation t ships)
      store.spaceships }

theorem sweep1_step (now : Int) (t : Trip) :
    sweep1Trip now (sweep2Trip now (sweep1Trip now t)) = sweep2Trip now (sweep1Trip now t) := by
  obtain ⟨tid, sid, dloc, aloc, dep, arr, st⟩ := t
  unfold sweep1Trip sweep2Trip sweep2Hits
  cases st <;> split_ifs <;> simp_all

theorem sweep2Hits_step (now : Int) (t : Trip) :
    sweep2Hits now (sweep2Trip now (sweep1Trip now t)) = false := by
  obtain ⟨tid, sid, dloc, aloc, dep, arr, st⟩ := t
  unfold sweep1Trip sweep2Trip sweep2Hits
  cases st <;> split_ifs <;> simp_all

/-- C8: the reconciler is idempotent at any fixed `now` — rerunning it
immediately yields the identical store (trips and vehicle home
locations alike) — and its single run advances each trip row by the
two sweeps: a `SCHEDULED` trip in its window becomes `IN_PROGRESS`, a
`SCHEDULED`/`IN_PROGRESS` trip whose arrival has passed becomes
`COMPLETED` (its vehicle's home location being set to its destination
by the fold in `updateTripStatuses`), and a `CANCELLED` trip is never
touched. -/
theorem c8_reconciler_idempotent (store : Store) (now : Int) :
    updateTripStatuses (updateTripStatuses store now) now = updateTripStatuses store now ∧
    (updateTripStatuses store now).trips =
      store.trips.map (fun t => sweep2Trip now (sweep1Trip now t)) ∧
    (∀ t, t.status = TripStatus.scheduled → t.departureAt ≤ now → now < t.arrivalAt →
      sweep2Trip now (sweep1Trip now t) = { t with status := TripStatus.inProgress }) ∧
    (∀ t, (t.status = TripStatus.scheduled ∨ t.status = TripStatus.inProgress) →
      t.arrivalAt ≤ now →
      sweep2Trip now (sweep1Trip now t) = { t with status := TripStatus.completed }) ∧
    (∀ t, t.status = TripStatus.cancelled → sweep2Trip now (sweep1Trip now t) = t) := by
  have hstep1 : ∀ t, sweep1Trip now (sweep2Trip now (sweep1Trip now t))
      = sweep2Trip now (sweep1Trip now t) := sweep1_step now
  have hhits : ∀ t, sweep2Hits now (sweep2Trip now (sweep1Trip now t)) = false :=
    sweep2Hits_step now
  have hs2 : ∀ t, sweep2Trip now (sweep2Trip now (sweep1Trip now t))
      = sweep2Trip now (sweep1Trip now t) := by
    intro t
    rw [show sweep2Trip now (sweep2Trip now (sweep1Trip now t))
        = if sweep2Hits now (sweep2Trip now (sweep1Trip now t)) then
            { sweep2Trip now (sweep1Trip now t) with status := TripStatus.completed }
          else sweep2Trip now (sweep1Trip now t) from rfl]
    rw [hhits t]
    simp
  have hmap1 : store.trips.map (fun t => sweep1Trip now (sweep2Trip now (sweep1Trip now t)))
      = store.trips.map (fun t => sweep2Trip now (sweep1Trip now t)) :=
    List.map_congr_left (fun t _ => hstep1 t)
  have hfilter : (store.trips.map (fun t => sweep2Trip now (sweep1Trip now t))).filter
      (sweep2Hits now) = [] := by
    rw [List.filter_eq_nil_iff]
    intro a ha
    obtain ⟨t, -, rfl⟩ := List.mem_map.mp ha
    simp [hhits t]
  refine ⟨?_, ?_, ?_, ?_, ?_⟩
  · unfold updateTripStatuses
    simp only [List.map_map, Function.comp_def]
    congr 1
    · rw [hmap1, hfilter]
      rfl
    · refine List.map_congr_left (fun t _ => ?_)
      rw [hstep1 t, hs2 t]
  · unfold updateTripStatuses
    simp [List.map_map, Function.comp_def]
  · intro t h1 h2 h3
    obtain ⟨tid, sid, dloc, aloc, dep, arr, st⟩ := t
    simp only at h1 h2 h3
    subst h1
    unfold sweep1Trip sweep2Trip sweep2Hits
    split_ifs <;> simp_all <;> omega
  · intro t h1 h2
    obtain ⟨tid, sid, dloc, aloc, dep, arr, st⟩ := t
    simp only at h1 h2
    unfold sweep1Trip sweep2Trip sweep2Hits
    rcases h1 with h1 | h1 <;> subst h1 <;> split_ifs <;> simp_all
  · intro t h1
    obtain ⟨tid, sid, dloc, aloc, dep, arr, st⟩ := t
    simp only at h1
    subst h1
    unfold sweep1Trip sweep2Trip sweep2Hits
    split_ifs <;> simp_all

/-- Witness for C8: the reconciler run twice at `now = 300` on the
one-scheduled-trip store equals the single run, and a concrete
scheduled trip whose arrival (200) has passed is advanced to
`COMPLETED`. -/
theorem c8_witness :
    updateTripStatuses (updateTripStatuses storeScheduledTrip 300) 300
        = updateTripStatuses storeScheduledTrip 300 ∧
      sweep2Trip 300 (sweep1Trip 300
          { id := "T1", spaceshipId := "S1", departureLocationCode := "AAA",
            destinationLocationCode := "BBB", departureAt := 100, arrivalAt := 200,
            status := TripStatus.scheduled })
        = { id := "T1", spaceshipId := "S1", departureLocationCode := "AAA",
            destinationLocationCode := "BBB", departureAt := 100, arrivalAt := 200,
            status := TripStatus.completed } :=
  ⟨(c8_reconciler_idempotent storeScheduledTrip 300).1,
    (c8_reconciler_idempotent storeScheduledTrip 300).2.2.2.1
      { id := "T1", spaceshipId := "S1", departureLocationCode := "AAA",
        destinationLocationCode := "BBB", departureAt := 100, arrivalAt := 200,
        status := TripStatus.scheduled } (Or.inl rfl) (by norm_num)⟩

/-- `Math.round(x * 1000000) / 1000000` — six decimal places
(`TimeCalculator.getCurrentLocation`). -/
def round6 (q : ℚ) : ℚ := (round (q * 1000000) : ℚ) / 1000000

/-- `Math.round(x * 100) / 100` — two decimal places. -/
def round2 (q : ℚ) : ℚ := (round (q * 100) : ℚ) / 100

/-- The linear-interpolation core of
`TimeCalculator.getCurrentLocation`:
`departure + (destination - departure) * progress`. -/
def lerp (a b p : ℚ) : ℚ := a + (b - a) * p

/-- The `{latitude, longitude, progress}` record
`TimeCalculator.getCurrentLocation` returns. -/
structure InterpolatedPosition where
  latitude : ℚ
  longitude : ℚ
  progress : ℚ
deriving DecidableEq, Repr

/-- Embedding of `TimeCalculator.getCurrentLocation` (`common/utils`):
clamped to the departure point for `elapsed ≤ 0`, to the destination
for `elapsed ≥ total`, otherwise linear interpolation by the elapsed
fraction, rounded to six (coordinates) / two (progress) decimals. -/
def getCurrentLocation (departureAt arrivalAt : Int)
    (departureLat departureLon destinationLat destinationLon : ℚ)
    (currentTime : Int) : InterpolatedPosition :=
  let totalTime : Int := arrivalAt - departureAt
  let elapsedTime : Int := currentTime - departureAt
  if elapsedTime ≤ 0 then
    { latitude := departureLat, longitude := departureLon, progress := 0 }
  else if totalTime ≤ elapsedTime then
    { latitude := destinationLat, longitude := destinationLon, progress := 1 }
  else
    let progress : ℚ := (elapsedTime : ℚ) / (totalTime : ℚ)
    { latitude := round6 (lerp departureLat destinationLat progress)
      longitude := round6 (lerp departureLon destinationLon progress)
      progress := round2 progress }

/-- The status strings of `TripStatusDto`. -/
def statusString : TripStatus → String
  | TripStatus.scheduled => "SCHEDULED"
  | TripStatus.inProgress => "IN_PROGRESS"
  | TripStatus.completed => "COMPLETED"
  | TripStatus.cancelled => "CANCELLED"

/-- The `currentLocation` field of the response. -/
structure CurrentLocationInfo where
  code : String
  latitude : ℚ
  longitude : ℚ
deriving DecidableEq, Repr

/-- The `TripStatusDto` response of `getTripStatus`. -/
structure TripStatusResponse where
  tripId : String
  spaceshipId : String
  departureLocationCode : String
  destinationLocationCode : String
  departureAt : Int
  arrivalAt : Int
  status : String
  currentLocation : Option CurrentLocationInfo
deriving DecidableEq, Repr

/-- `locationRepository` lookup by primary key (the relation loading
of `getTripStatus`; the foreign keys guarantee presence). -/
def findLocation (store : Store) (code : String) : Option Location :=
  store.locations.find? (fun l => l.code == code)

/-- Embedding of `TripService.getTripStatus` (`trip.service.ts` lines
261-314).  The interpolation block runs only for a trip whose *stored*
status is `SCHEDULED` and whose window contains `now`; a stored
`IN_PROGRESS`/`COMPLETED`/`CANCELLED` status is echoed verbatim with
no position.  The joined location rows are read only inside the
interpolation branch; a missing row (impossible under the schema's
foreign keys) is an internal error. -/
def getTripStatus (store : Store) (tripId : String) (now : Int) :
    Except ServiceError TripStatusResponse :=
  match store.trips.find? (fun t => t.id == tripId) with
  | none => Except.error (ServiceError.notFound "Trip not found")
  | some trip =>
    let base : TripStatusResponse :=
      { tripId := trip.id
        spaceshipId := trip.spaceshipId
        departureLocationCode := trip.departureLocationCode
        destinationLocationCode := trip.destinationLocationCode
        departureAt := trip.departureAt
        arrivalAt := trip.arrivalAt
        status := statusString trip.status
        currentLocation := none }
    if trip.status = TripStatus.scheduled then
      if trip.departureAt ≤ now ∧ now < trip.arrivalAt then
        match findLocation store trip.departureLocationCode,
            findLocation store trip.destinationLocationCode with
        | some depLoc, some destLoc =>
          Except.ok { base with
            status := "IN_PROGRESS"
            currentLocation := some
              { code := "IN_TRANSIT"
                latitude := (getCurrentLocation trip.departureAt trip.arrivalAt
                  depLoc.latitude depLoc.longitude destLoc.latitude destLoc.longitude
                  now).latitude
                longitude := (getCurrentLocation trip.departureAt trip.arrivalAt
                  depLoc.latitude depLoc.longitude destLoc.latitude destLoc.longitude
                  now).longitude } }
        | _, _ => Except.error (ServiceError.internal "trip location relations missing")
      else if trip.arrivalAt ≤ now then
        Except.ok { base with status := "COMPLETED" }
      else
        Except.ok base
    else
      Except.ok base

/-- A stored trip already marked `IN_PROGRESS` by the reconciler,
queried in the middle of its window. -/
def storeInProgressTrip : Store where
  spaceships := [{ id := "S1", currentLocationCode := "AAA" }]
  trips :=
    [ { id := "T1", spaceshipId := "S1", departureLocationCode := "AAA",
        destinationLocationCode := "BBB", departureAt := 0, arrivalAt := 10,
        status := TripStatus.inProgress } ]
  locations :=
    [ { code := "AAA", latitude := 0, longitude := 0 },
      { code := "BBB", latitude := 10, longitude := 20 } ]

/-- Counterexample for C9: the stored trip is non-cancelled
(`IN_PROGRESS`) and `now = 5` lies inside `[departure, arrival)`, yet
`getTripStatus` answers with *no* interpolated position
(`currentLocation = none`) — the interpolation block only runs for a
stored status of `SCHEDULED`. -/
theorem c9_counterexample_stored_inProgress_lacks_position :
    getTripStatus storeInProgressTrip "T1" 5 = Except.ok
      { tripId := "T1", spaceshipId := "S1", departureLocationCode := "AAA",
        destinationLocationCode := "BBB", departureAt := 0, arrivalAt := 10,
        status := "IN_PROGRESS", currentLocation := none } :=
  rfl

/-- C9 amended: for a stored trip whose status is `SCHEDULED` (the case
the interpolation block actually serves) and any `now` with
`departure ≤ now < arrival`, `getTripStatus` reports `IN_PROGRESS`
together with the interpolated position; at `now = departure` that
position is exactly the departure coordinates; and strictly inside the
window the coordinates are the six-decimal rounding of the linear
interpolation by the elapsed fraction, whose (unrounded) offset from
the destination shrinks proportionally to the remaining time — so the
position approaches the destination coordinates as `now` approaches
the arrival instant. -/
theorem c9_scheduled_in_window_reports_interpolated_position
    (store : Store) (tripId : String) (now : Int) (trip : Trip) (depLoc destLoc : Location)
    (hfind : store.trips.find? (fun t => t.id == tripId) = some trip)
    (hstatus : trip.status = TripStatus.scheduled)
    (h1 : trip.departureAt ≤ now) (h2 : now < trip.arrivalAt)
    (hdep : findLocation store trip.departureLocationCode = some depLoc)
    (hdest : findLocation store trip.destinationLocationCode = some destLoc) :
    getTripStatus store tripId now = Except.ok
      { tripId := trip.id, spaceshipId := trip.spaceshipId,
        departureLocationCode := trip.departureLocationCode,
        destinationLocationCode := trip.destinationLocationCode,
        departureAt := trip.departureAt, arrivalAt := trip.arrivalAt,
        status := "IN_PROGRESS",
        currentLocation := some
          { code := "IN_TRANSIT"
            latitude := (getCurrentLocation trip.departureAt trip.arrivalAt
              depLoc.latitude depLoc.longitude destLoc.latitude destLoc.longitude
              now).latitude
            longitude := (getCurrentLocation trip.departureAt trip.arrivalAt
              depLoc.latitude depLoc.longitude destLoc.latitude destLoc.longitude
              now).longitude } } ∧
    (now = trip.departureAt →
      getCurrentLocation trip.departureAt trip.arrivalAt
          depLoc.latitude depLoc.longitude destLoc.latitude destLoc.longitude now
        = { latitude := depLoc.latitude, longitude := depLoc.longitude, progress := 0 }) ∧
    (trip.departureAt < now →
      (getCurrentLocation trip.departureAt trip.arrivalAt
          depLoc.latitude depLoc.longitude destLoc.latitude destLoc.longitude now).latitude
        = round6 (lerp depLoc.latitude destLoc.latitude
            (((now - trip.departureAt : Int) : ℚ) / ((trip.arrivalAt - trip.departureAt : Int) : ℚ))) ∧
      (getCurrentLocation trip.departureAt trip.arrivalAt
          depLoc.latitude depLoc.longitude destLoc.latitude destLoc.longitude now).longitude
        = round6 (lerp depLoc.longitude destLoc.longitude
            (((now - trip.departureAt : Int) : ℚ) / ((trip.arrivalAt - trip.departureAt : Int) : ℚ)))) ∧
    ∀ a b : ℚ,
      b - lerp a b (((now - trip.departureAt : Int) : ℚ)
          / ((trip.arrivalAt - trip.departureAt : Int) : ℚ))
        = (b - a) * (((trip.arrivalAt - now : Int) : ℚ)
            / ((trip.arrivalAt - trip.departureAt : Int) : ℚ)) := by
  have hlt : trip.departureAt < trip.arrivalAt := lt_of_le_of_lt h1 h2
  have hne : ((trip.arrivalAt - trip.departureAt : Int) : ℚ) ≠ 0 := by
    have : (0 : Int) < trip.arrivalAt - trip.departureAt := by omega
    positivity
  refine ⟨?_, ?_, ?_, ?_⟩
  · simp [getTripStatus, hfind, hstatus, h1, h2, hdep, hdest]
  · intro heq
    subst heq
    simp [getCurrentLocation]
  · intro hlt2
    have hc1 : ¬ (now - trip.departureAt ≤ 0) := by omega
    have hc2 : ¬ (trip.arrivalAt - trip.departureAt ≤ now - trip.departureAt) := by omega
    unfold getCurrentLocation
    rw [if_neg hc1, if_neg hc2]
    exact ⟨rfl, rfl⟩
  · intro a b
    unfold lerp
    have hne2 : (trip.arrivalAt : ℚ) - (trip.departureAt : ℚ) ≠ 0 := by
      push_cast at hne
      exact hne
    push_cast
    field_simp [hne2]
    ring

/-- Witness for C9: the scheduled trip of `storeScheduledTrip` queried
at `now = 150` (inside its 100..200 window) reports `IN_PROGRESS` with
the interpolated position. -/
theorem c9_witness :
    getTripStatus storeScheduledTrip "T1" 150 = Except.ok
      { tripId := "T1", spaceshipId := "S1", departureLocationCode := "AAA",
        destinationLocationCode := "BBB", departureAt := 100, arrivalAt := 200,
        status := "IN_PROGRESS",
        currentLocation := some
          { code := "IN_TRANSIT"
            latitude := (getCurrentLocation 100 200 0 0 10 10 150).latitude
            longitude := (getCurrentLocation 100 200 0 0 10 10 150).longitude } } :=
  (c9_scheduled_in_window_reports_interpolated_position storeScheduledTrip "T1" 150
    { id := "T1", spaceshipId := "S1", departureLocationCode := "AAA",
      destinationLocationCode := "BBB", departureAt := 100, arrivalAt := 200,
      status := TripStatus.scheduled }
    { code := "AAA", latitude := 0, longitude := 0 }
    { code := "BBB", latitude := 10, longitude := 10 }
    rfl rfl (by norm_num) (by norm_num) rfl rfl).1
